import Mathlib

/-!
Verification of the RAG orchestration and streaming-response engine
(`app/services/rag/rag_service.py`, `app/services/rag/conversation_service.py`,
`app/services/memory/memory_manager.py`).

The external collaborators (the vector memory backend `GraphMemorySystem`,
the web-search client, and the OpenAI client) live outside the verified
sources; every call into one of them is modelled by its outcome, an
`Except Exc` value supplied as an input.  All code translated here is
otherwise a direct rendering of the Python sources.
-/

/-- Python exception payloads are observed only through `str(e)`. -/
abbrev Exc := String

/-- A Python value stored in a string-keyed dict (metadata / context dicts
hold strings and integers in the verified sources). -/
inductive PyVal where
  | str (s : String)
  | int (n : Int)
deriving DecidableEq, Repr

/-- Python dict assignment `d[k] = v` on an insertion-ordered dict:
replace in place when the key exists, append otherwise. -/
def dictSet (d : List (String × PyVal)) (k : String) (v : PyVal) : List (String × PyVal) :=
  if d.any (fun p => p.1 == k) then
    d.map (fun p => if p.1 == k then (k, v) else p)
  else
    d ++ [(k, v)]

/-- One web-search hit: a dict read with
`result.get('title', 'No title')` and `result.get('snippet', 'No description')`
in `rag_service.py` lines 228-229, so both keys may be absent. -/
structure WebResult where
  title : Option String := none
  snippet : Option String := none
deriving DecidableEq, Repr

/-- Modelled from the spec: the `RetrievalResult` dataclass is declared in
`app/services/memory/base_memory.py`, which is not among the given sources.
Spec section 3 fixes its shape: `memories` (ordered strings), `facts`
(key-value mapping), `webResults` (title/snippet records), `sources`
(provenance labels), `metadata` (mapping), all defaulting to empty, and the
bare constructor `RetrievalResult()` used in `memory_manager.py` lines 85
and 136 yields the all-empty value. -/
structure RetrievalResult where
  memories : List String := []
  facts : List (String × String) := []
  web_results : List WebResult := []
  sources : List String := []
  metadata : List (String × PyVal) := []
deriving DecidableEq, Repr

/-- The per-call input of one turn (`chat_async` / `chat_sync` keyword
arguments, spec `TurnRequest`). -/
structure TurnRequest where
  user_message : String
  conversation_id : Option String := none
  user_id : Option Int := none
  digital_human_id : Option Int := none
  system_prompt : Option String := none
deriving DecidableEq, Repr

/-- The `RAGResponse` dataclass of `rag_service.py` lines 14-25 (spec
`TurnResponse`).  `processing_time` is a wall-clock measurement; it is
carried as an exact rational supplied by the environment. -/
structure RAGResponse where
  response : String
  sources : List String
  memory_used : Nat
  web_results : Nat
  facts_retrieved : Nat
  processing_time : ℚ
  metadata : List (String × PyVal)
  conversation_id : Option String := none
  error : Option String := none
deriving DecidableEq, Repr

/-- Python truthiness of an `Optional[int]`: `None` and `0` are falsy. -/
def pyTruthyInt : Option Int → Bool
  | none => false
  | some n => n != 0

/-- Python truthiness of an `Optional[str]`: `None` and the empty string
are falsy. -/
def pyTruthyStr : Option String → Bool
  | none => false
  | some s => s != ""

/-- Python `x or default` on an `Optional[str]` (used for
`system_prompt or default_system_prompt`, `rag_service.py` line 239). -/
def pyStrOr (s : Option String) (dflt : String) : String :=
  match s with
  | none => dflt
  | some v => if v == "" then dflt else v

/-- Model of Python `round(x, 2)` applied to the elapsed-seconds
measurement (`rag_service.py` lines 93 and 161), over exact rationals. -/
def round2 (q : ℚ) : ℚ := ((round (q * 100) : ℤ) : ℚ) / 100

/-- `for i, item in enumerate(items, start): f"{i}. {item}"` — the
numbered rendering used for memory snippets and web results
(`rag_service.py` lines 214-215 and 227-230). -/
def numberFrom : Nat → List String → List String
  | _, [] => []
  | i, item :: rest => (toString i ++ ". " ++ item) :: numberFrom (i + 1) rest

/-- The fact loop of `rag_service.py` lines 220-222: every fact whose key
does not start with the internal marker is rendered as a `- key: value`
line, in dict order. -/
def renderFactLines (facts : List (String × String)) : List String :=
  facts.filterMap (fun kv =>
    if kv.1.startsWith "_" then none
    else some ("- " ++ kv.1 ++ ": " ++ kv.2))

/-- Rendering of one web hit, `rag_service.py` lines 228-230. -/
def renderWebResult (w : WebResult) : String :=
  w.title.getD "No title" ++ ": " ++ w.snippet.getD "No description"

/-- The `context_parts` list built by `_generate_response_sync`
(`rag_service.py` lines 208-230): a memory section (header plus up to 3
numbered snippets), then a facts section (header plus non-internal
`key: value` lines), then a web section (header plus up to 3 numbered
`title: snippet` lines); each section is present exactly when its source
collection is (Python-)truthy, i.e. non-empty. -/
def context_parts (r : RetrievalResult) : List String :=
  (if r.memories.isEmpty then []
   else "Previous conversation context:" :: numberFrom 1 (r.memories.take 3))
  ++ (if r.facts.isEmpty then []
   else "\nKnown facts about the user:" :: renderFactLines r.facts)
  ++ (if r.web_results.isEmpty then []
   else "\nRecent information from web search:" :: numberFrom 1 ((r.web_results.take 3).map renderWebResult))

/-- `"\n".join(context_parts) if context_parts else "No additional context
available."` (`rag_service.py` line 241). -/
def context_text (r : RetrievalResult) : String :=
  if (context_parts r).isEmpty then "No additional context available."
  else String.intercalate "\n" (context_parts r)

/-- The fixed apology returned on the total-failure path
(`rag_service.py` lines 104 and 172). -/
def apology_text : String :=
  "I apologize, but I encountered an error processing your message. Please try again."

/-- Generation-failure fallback used when memories were retrieved
(`rag_service.py` line 266). -/
def memory_fallback_text (user_message : String) : String :=
  "Based on our previous conversations, I understand you\x27re asking about: "
    ++ user_message
    ++ ". However, I\x27m having trouble accessing my language model right now. Could you please try again?"

/-- Generation-failure fallback used when no memories were retrieved
(`rag_service.py` line 268). -/
def generic_fallback_text (user_message : String) : String :=
  "I understand you\x27re asking about: "
    ++ user_message
    ++ ". I\x27m experiencing some technical difficulties with my response generation. Please try again in a moment."

/-- The built-in default persona prompt (`rag_service.py` lines 233-237). -/
def default_system_prompt : String :=
  "You are a helpful AI assistant with access to conversation memory and current web information.\n\nUse the provided context to give accurate, helpful responses. If you use information from web search results, mention that you found recent information. If you reference previous conversations, acknowledge the context naturally.\n\nBe conversational, helpful, and accurate. Don\x27t mention technical details about your memory system or processing unless specifically asked."

/-- `RAGService._generate_response_sync` (`rag_service.py` lines 200-268).
`genCreate` is the outcome of the OpenAI chat-completion call as a function
of the two prompts, the output cap and the temperature; on success the
returned message content is stripped, on failure the memory-aware or
generic fallback is synthesized — the failure never escapes. -/
def RAGService.generate_response_sync (user_message : String) (retrieval_result : RetrievalResult)
    (system_prompt : Option String)
    (genCreate : String → String → Nat → ℚ → Except Exc String) : String :=
  let final_system_prompt := pyStrOr system_prompt default_system_prompt
  let ctx := context_text retrieval_result
  let user_prompt := "Context:\n" ++ ctx ++ "\n\nUser message: " ++ user_message
    ++ "\n\nPlease respond naturally and helpfully based on the context provided."
  match genCreate final_system_prompt user_prompt 500 ((7 : ℚ) / 10) with
  | Except.ok content => content.trim
  | Except.error _ =>
      if !retrieval_result.memories.isEmpty then memory_fallback_text user_message
      else generic_fallback_text user_message

/-- `RAGService._generate_response_async` (`rag_service.py` lines 183-198)
delegates to `_generate_response_sync` through `run_in_executor` with the
same arguments. -/
def RAGService.generate_response_async (user_message : String) (retrieval_result : RetrievalResult)
    (system_prompt : Option String)
    (genCreate : String → String → Nat → ℚ → Except Exc String) : String :=
  RAGService.generate_response_sync user_message retrieval_result system_prompt genCreate

/-- The metadata enrichment after a successful inner retrieval
(`memory_manager.py` lines 76-80 and 127-131): `user_id` and
`digital_human_id` are written into `result.metadata` when truthy. -/
def RetrievalResult.withIdMetadata (result : RetrievalResult)
    (user_id digital_human_id : Option Int) : RetrievalResult :=
  let r1 := if pyTruthyInt user_id then
      { result with metadata := dictSet result.metadata "user_id" (PyVal.int (user_id.getD 0)) }
    else result
  if pyTruthyInt digital_human_id then
    { r1 with metadata := dictSet r1.metadata "digital_human_id" (PyVal.int (digital_human_id.getD 0)) }
  else r1

/-- `MemoryManager.retrieve_context_async` (`memory_manager.py` lines
57-85).  `port` is the outcome of the inner
`memory_system.retrieve_context(query, max_results)` call; any failure is
absorbed into the empty `RetrievalResult()`. -/
def MemoryManager.retrieve_context_async (port : String → Nat → Except Exc RetrievalResult)
    (query : String) (max_results : Nat)
    (user_id digital_human_id : Option Int) : RetrievalResult :=
  match port query max_results with
  | Except.ok result => result.withIdMetadata user_id digital_human_id
  | Except.error _ => {}

/-- `MemoryManager.retrieve_context_sync` (`memory_manager.py` lines
116-136), textually the synchronous twin of the async variant. -/
def MemoryManager.retrieve_context_sync (port : String → Nat → Except Exc RetrievalResult)
    (query : String) (max_results : Nat)
    (user_id digital_human_id : Option Int) : RetrievalResult :=
  match port query max_results with
  | Except.ok result => result.withIdMetadata user_id digital_human_id
  | Except.error _ => {}

/-- The context dict built before persisting a conversation
(`memory_manager.py` lines 33-39 and 97-103): truthy identifiers are
inserted in a fixed order. -/
def storeContext (conversation_id : Option String)
    (user_id digital_human_id : Option Int) : List (String × PyVal) :=
  let context : List (String × PyVal) := []
  let context := if pyTruthyStr conversation_id then
      dictSet context "conversation_id" (PyVal.str (conversation_id.getD "")) else context
  let context := if pyTruthyInt user_id then
      dictSet context "user_id" (PyVal.int (user_id.getD 0)) else context
  let context := if pyTruthyInt digital_human_id then
      dictSet context "digital_human_id" (PyVal.int (digital_human_id.getD 0)) else context
  context

/-- `MemoryManager.store_conversation_async` (`memory_manager.py` lines
23-55).  `port` is the outcome of the inner
`memory_system.store_conversation` call; failure is absorbed and reported
as `False`, success as `True`. -/
def MemoryManager.store_conversation_async
    (port : String → String → List (String × PyVal) → Except Exc Unit)
    (user_message assistant_response : String) (conversation_id : Option String)
    (user_id digital_human_id : Option Int) : Bool :=
  match port user_message assistant_response
      (storeContext conversation_id user_id digital_human_id) with
  | Except.ok _ => true
  | Except.error _ => false

/-- `MemoryManager.store_conversation_sync` (`memory_manager.py` lines
87-114), textually the synchronous twin of the async variant. -/
def MemoryManager.store_conversation_sync
    (port : String → String → List (String × PyVal) → Except Exc Unit)
    (user_message assistant_response : String) (conversation_id : Option String)
    (user_id digital_human_id : Option Int) : Bool :=
  match port user_message assistant_response
      (storeContext conversation_id user_id digital_human_id) with
  | Except.ok _ => true
  | Except.error _ => false

/-- The three external collaborators of one turn, each given by its
outcome: the inner memory retrieval, the OpenAI completion call, and the
inner memory write.  "Identical port behavior" for the sync/async
comparison means one and the same `Ports` value. -/
structure Ports where
  memRetrieve : String → Nat → Except Exc RetrievalResult
  genCreate : String → String → Nat → ℚ → Except Exc String
  memStore : String → String → List (String × PyVal) → Except Exc Unit

/-- The three statements inside the `try` block of `chat_async` /
`chat_sync` (`rag_service.py` lines 59-83 and 127-151), each abstracted by
its outcome: under Python semantics any of the three calls may raise, and
whatever escapes one of them reaches the surrounding `except` handler. -/
structure TurnSteps where
  retrieveStep : Except Exc RetrievalResult
  generateStep : RetrievalResult → Except Exc String
  persistStep : String → Except Exc Bool

/-- The `try`-block body shared verbatim by `chat_async` (`rag_service.py`
lines 59-83) and `chat_sync` (lines 127-151): retrieve, then generate from
the retrieval result, then persist; the first exception to escape a step
aborts the block. -/
def chat_body (st : TurnSteps) : Except Exc (RetrievalResult × String) :=
  match st.retrieveStep with
  | Except.error e => Except.error e
  | Except.ok retrieval_result =>
    match st.generateStep retrieval_result with
    | Except.error e => Except.error e
    | Except.ok response_text =>
      match st.persistStep response_text with
      | Except.error e => Except.error e
      | Except.ok _ => Except.ok (retrieval_result, response_text)

/-- `RAGService.chat_async` (`rag_service.py` lines 47-113): on a clean
run, the `RAGResponse` is built from the retrieval collections with the
rounded elapsed time and a null error; if any step raises, the `except`
handler (lines 98-113) returns the apology response with all counts zero,
the unrounded elapsed time, and the descriptive error message. -/
def RAGService.chat_async (st : TurnSteps) (req : TurnRequest) (elapsed : ℚ) : RAGResponse :=
  match chat_body st with
  | Except.ok (retrieval_result, response_text) =>
    { response := response_text
      sources := retrieval_result.sources
      memory_used := retrieval_result.memories.length
      web_results := retrieval_result.web_results.length
      facts_retrieved := retrieval_result.facts.length
      processing_time := round2 elapsed
      metadata := retrieval_result.metadata
      conversation_id := req.conversation_id
      error := none }
  | Except.error e =>
    { response := apology_text
      sources := []
      memory_used := 0
      web_results := 0
      facts_retrieved := 0
      processing_time := elapsed
      metadata := []
      conversation_id := req.conversation_id
      error := some ("RAG processing failed: " ++ e) }

/-- `RAGService.chat_sync` (`rag_service.py` lines 115-181), textually the
synchronous twin of `chat_async` over the same step outcomes. -/
def RAGService.chat_sync (st : TurnSteps) (req : TurnRequest) (elapsed : ℚ) : RAGResponse :=
  match chat_body st with
  | Except.ok (retrieval_result, response_text) =>
    { response := response_text
      sources := retrieval_result.sources
      memory_used := retrieval_result.memories.length
      web_results := retrieval_result.web_results.length
      facts_retrieved := retrieval_result.facts.length
      processing_time := round2 elapsed
      metadata := retrieval_result.metadata
      conversation_id := req.conversation_id
      error := none }
  | Except.error e =>
    { response := apology_text
      sources := []
      memory_used := 0
      web_results := 0
      facts_retrieved := 0
      processing_time := elapsed
      metadata := []
      conversation_id := req.conversation_id
      error := some ("RAG processing failed: " ++ e) }

/-- The steps actually executed by `chat_async`: the memory-manager
wrappers absorb their port failures, and the generation fallback absorbs
the completion failure, so every step outcome is a normal return. -/
def asyncSteps (p : Ports) (req : TurnRequest) : TurnSteps where
  retrieveStep := Except.ok
    (MemoryManager.retrieve_context_async p.memRetrieve req.user_message 5
      req.user_id req.digital_human_id)
  generateStep := fun retrieval_result => Except.ok
    (RAGService.generate_response_async req.user_message retrieval_result
      req.system_prompt p.genCreate)
  persistStep := fun response_text => Except.ok
    (MemoryManager.store_conversation_async p.memStore req.user_message response_text
      req.conversation_id req.user_id req.digital_human_id)

/-- The steps actually executed by `chat_sync`, built from the synchronous
memory-manager wrappers. -/
def syncSteps (p : Ports) (req : TurnRequest) : TurnSteps where
  retrieveStep := Except.ok
    (MemoryManager.retrieve_context_sync p.memRetrieve req.user_message 5
      req.user_id req.digital_human_id)
  generateStep := fun retrieval_result => Except.ok
    (RAGService.generate_response_sync req.user_message retrieval_result
      req.system_prompt p.genCreate)
  persistStep := fun response_text => Except.ok
    (MemoryManager.store_conversation_sync p.memStore req.user_message response_text
      req.conversation_id req.user_id req.digital_human_id)

/-- `chat_async` run against concrete port outcomes. -/
def RAGService.chat_async_with (p : Ports) (req : TurnRequest) (elapsed : ℚ) : RAGResponse :=
  RAGService.chat_async (asyncSteps p req) req elapsed

/-- `chat_sync` run against concrete port outcomes. -/
def RAGService.chat_sync_with (p : Ports) (req : TurnRequest) (elapsed : ℚ) : RAGResponse :=
  RAGService.chat_sync (syncSteps p req) req elapsed

/-- One wire event of the streaming transport (spec section 6; each event
is serialized as a JSON object framed as an SSE `data:` line by
`conversation_service.py`; the framing and JSON encoding carry no further
logic and are not modelled). -/
inductive WireEvent where
  | metadata (conversation_id : String) (sources : List String)
      (memory_used web_results : Nat) (processing_time : ℚ)
  | chunk (content : String) (chunk_id : Nat)
  | complete (conversation_id : String) (total_chunks : Nat)
  | error (err : String) (conversation_id : String)
deriving DecidableEq, Repr

/-- `if not conversation_id: conversation_id = str(uuid.uuid4())`
(`conversation_service.py` lines 101-102): a falsy (absent or empty)
conversation id is replaced by a fresh token, supplied here as `freshId`. -/
def resolveConvId (conversation_id : Option String) (freshId : String) : String :=
  match conversation_id with
  | none => freshId
  | some s => if s == "" then freshId else s

/-- Python `range(0, stop, step)` for a positive `step`: the multiples of
`step` below `stop`. -/
def pyRange (stop step : Nat) : List Nat :=
  (List.range ((stop + step - 1) / step)).map (fun j => j * step)

/-- The chunk loop of `stream_response_async` (`conversation_service.py`
lines 130-138): for each `i in range(0, len(response_text), chunk_size)`,
a `chunk` event with content `response_text[i:i + chunk_size]` (a
character slice) and `chunk_id = i // chunk_size`.  The 50 ms pacing sleep
between emissions carries no data and is not modelled. -/
def chunkEvents (response_text : String) (chunk_size : Nat) : List WireEvent :=
  (pyRange response_text.length chunk_size).map (fun i =>
    WireEvent.chunk (String.mk ((response_text.data.drop i).take chunk_size)) (i / chunk_size))

/-- `ConversationService.stream_response_async` (`conversation_service.py`
lines 91-154).  `turn` is the outcome of the awaited
`rag_service.chat_async` call; on a normal return the adapter emits one
`metadata` event, the 20-character chunk events, and one `complete` event
carrying `(len(text) + 19) // 20`; if the awaited call raises, the
`except` handler emits a single `error` event instead. -/
def ConversationService.stream_response_async (turn : Except Exc RAGResponse)
    (conversation_id : Option String) (freshId : String) : List WireEvent :=
  let conv_id := resolveConvId conversation_id freshId
  match turn with
  | Except.ok rag_response =>
      WireEvent.metadata conv_id rag_response.sources rag_response.memory_used
          rag_response.web_results rag_response.processing_time
        :: chunkEvents rag_response.response 20
        ++ [WireEvent.complete conv_id ((rag_response.response.length + 20 - 1) / 20)]
  | Except.error e => [WireEvent.error e conv_id]

/-- The contents of the `chunk` events of an event sequence, in order. -/
def chunkContentsOf (evs : List WireEvent) : List String :=
  evs.filterMap fun ev =>
    match ev with
    | WireEvent.chunk content _ => some content
    | _ => none

/-- The `chunk_id` fields of the `chunk` events of an event sequence. -/
def chunkIdsOf (evs : List WireEvent) : List Nat :=
  evs.filterMap fun ev =>
    match ev with
    | WireEvent.chunk _ chunk_id => some chunk_id
    | _ => none

/-- The status aggregation of `RAGService.health_check` (`rag_service.py`
lines 298-338) as a function of the three sub-component health values it
reads: the memory report status, the search report status, and whether the
OpenAI test call succeeded.  The two `if` statements reassign
`overall_status` in order. -/
def RAGService.health_check_status (memory_status search_status : String)
    (openai_healthy : Bool) : String :=
  let overall_status := "healthy"
  let overall_status :=
    if memory_status != "healthy" || search_status == "unhealthy" || !openai_healthy
    then "degraded" else overall_status
  let overall_status :=
    if !openai_healthy && search_status == "unhealthy"
    then "unhealthy" else overall_status
  overall_status

/-- The nested metadata block of the non-streaming API shape
(`conversation_service.py` lines 170-179). -/
structure ResponseMetadata where
  sources : List String
  memory_used : Nat
  web_results : Nat
  facts_retrieved : Nat
  processing_time : ℚ
  rag_metadata : List (String × PyVal)
  user_id : Option Int
  digital_human_id : Option Int
deriving DecidableEq, Repr

/-- The `data` block of the non-streaming API shape
(`conversation_service.py` lines 166-180). -/
structure ResponseData where
  message : String
  conversation_id : Option String
  timestamp : String
  metadata : ResponseMetadata
deriving DecidableEq, Repr

/-- The serialized non-streaming result
(`conversation_service.py` lines 164-182). -/
structure FormattedResponse where
  success : Bool
  data : ResponseData
  error : Option String
deriving DecidableEq, Repr

/-- `ConversationService._format_response` (`conversation_service.py`
lines 156-182).  The `datetime.utcnow().isoformat()` timestamp is a
wall-clock reading supplied by the environment. -/
def ConversationService.format_response (rag_response : RAGResponse)
    (user_id digital_human_id : Option Int) (timestamp : String) : FormattedResponse :=
  { success := true
    data :=
      { message := rag_response.response
        conversation_id := rag_response.conversation_id
        timestamp := timestamp
        metadata :=
          { sources := rag_response.sources
            memory_used := rag_response.memory_used
            web_results := rag_response.web_results
            facts_retrieved := rag_response.facts_retrieved
            processing_time := rag_response.processing_time
            rag_metadata := rag_response.metadata
            user_id := user_id
            digital_human_id := digital_human_id } }
    error := rag_response.error }

/-- Grouping of a character list into consecutive blocks of `k`
characters (the last one possibly shorter); proof-side companion of the
chunk loop. -/
def chunksOf (k : Nat) (cs : List Char) : List (List Char) :=
  if _h : cs.isEmpty || k == 0 then [] else cs.take k :: chunksOf k (cs.drop k)
termination_by cs.length
decreasing_by
  simp only [Bool.or_eq_true, List.isEmpty_iff, beq_iff_eq] at _h
  push_neg at _h
  have h1 : cs.length ≠ 0 := by
    simpa [List.length_eq_zero] using _h.1
  have h2 := _h.2
  simp only [List.length_drop]
  omega

theorem chunksOf_flatten (k : Nat) (hk : k ≠ 0) (cs : List Char) :
    (chunksOf k cs).flatten = cs := by
  have H : ∀ n (cs : List Char), cs.length ≤ n → (chunksOf k cs).flatten = cs := by
    intro n
    induction n with
    | zero =>
      intro cs hle
      have : cs = [] := by
        cases cs with
        | nil => rfl
        | cons a l => simp at hle
      subst this
      simp [chunksOf]
    | succ n ih =>
      intro cs hle
      rw [chunksOf]
      split
      · rename_i h
        simp only [Bool.or_eq_true, List.isEmpty_iff, beq_iff_eq] at h
        rcases h with h | h
        · simp [h]
        · exact absurd h hk
      · rename_i h
        simp only [Bool.or_eq_true, List.isEmpty_iff, beq_iff_eq] at h
        push_neg at h
        have hlen : cs.length ≠ 0 := by
          simpa [List.length_eq_zero] using h.1
        rw [List.flatten_cons, ih (cs.drop k) (by simp only [List.length_drop]; omega)]
        exact List.take_append_drop k cs
  exact H cs.length cs le_rfl

theorem ceilDiv20_succ (L : Nat) (hL : 1 ≤ L) :
    (L + 19) / 20 = ((L - 20) + 19) / 20 + 1 := by
  omega

theorem range_map_chunksOf (cs : List Char) :
    (List.range ((cs.length + 19) / 20)).map (fun j => (cs.drop (j * 20)).take 20)
      = chunksOf 20 cs := by
  have H : ∀ n (cs : List Char), cs.length ≤ n →
      (List.range ((cs.length + 19) / 20)).map (fun j => (cs.drop (j * 20)).take 20)
        = chunksOf 20 cs := by
    intro n
    induction n with
    | zero =>
      intro cs hle
      have : cs = [] := by
        cases cs with
        | nil => rfl
        | cons a l => simp at hle
      subst this
      simp [chunksOf]
    | succ n ih =>
      intro cs hle
      by_cases hcs : cs = []
      · subst hcs
        simp [chunksOf]
      · have hlen : 1 ≤ cs.length := by
          cases cs with
          | nil => exact absurd rfl hcs
          | cons a l => simp
        rw [ceilDiv20_succ cs.length hlen]
        rw [List.range_succ_eq_map, List.map_cons, List.map_map]
        have hdrop : ((cs.drop 20).length + 19) / 20 = (cs.length - 20 + 19) / 20 := by
          simp [List.length_drop]
        have step :
            (List.range ((cs.length - 20 + 19) / 20)).map
                ((fun j => (cs.drop (j * 20)).take 20) ∘ Nat.succ)
              = (List.range (((cs.drop 20).length + 19) / 20)).map
                  (fun j => ((cs.drop 20).drop (j * 20)).take 20) := by
          rw [hdrop]
          apply List.map_congr_left
          intro j _
          simp only [Function.comp_apply]
          have hmul : Nat.succ j * 20 = 20 + j * 20 := by omega
          rw [hmul, ← List.drop_drop]
        rw [step, ih (cs.drop 20) (by simp only [List.length_drop]; omega)]
        conv_rhs => rw [chunksOf]
        rw [dif_neg (by simp [List.isEmpty_iff, hcs])]
        simp
  exact H cs.length cs le_rfl

theorem String.mk_append_mk (a b : List Char) :
    String.mk a ++ String.mk b = String.mk (a ++ b) := rfl

theorem String.mk_data_eq (s : String) : String.mk s.data = s := by
  cases s
  rfl

theorem String.foldl_append_mk (l : List (List Char)) :
    ∀ acc : List Char,
      List.foldl (fun r s => r ++ s) (String.mk acc) (l.map String.mk)
        = String.mk (acc ++ l.flatten) := by
  induction l with
  | nil => intro acc; simp
  | cons x xs ih =>
    intro acc
    simp only [List.map_cons, List.foldl_cons, String.mk_append_mk, ih,
      List.flatten_cons, List.append_assoc]

theorem String.join_map_mk (l : List (List Char)) :
    String.join (l.map String.mk) = String.mk l.flatten := by
  have h0 : ("" : String) = String.mk [] := rfl
  rw [String.join, h0, String.foldl_append_mk]
  rfl

theorem numberFrom_eq_enumFrom (n : Nat) (xs : List String) :
    numberFrom n xs = (List.enumFrom n xs).map (fun p => toString p.1 ++ ". " ++ p.2) := by
  induction xs generalizing n with
  | nil => rfl
  | cons x rest ih => simp [numberFrom, List.enumFrom, ih]

/-- Written from the spec, section 4.1 step 2: memory snippets and web
hits are "numbered", i.e. item `p` at 1-based position `i` renders as
`i. p`. -/
def specNumberedLines (items : List String) : List String :=
  (List.enumFrom 1 items).map (fun p => toString p.1 ++ ". " ++ p.2)

/-- Written from the spec, section 4.1 step 2: a non-internal fact renders
as a `key: value` line (with the list-item dash used by the source). -/
def specFactLine (kv : String × String) : String := "- " ++ kv.1 ++ ": " ++ kv.2

/-- Written from the spec, section 4.1 step 2: a web result renders as
`title: snippet`, with the fixed placeholders for missing fields. -/
def specWebLine (w : WebResult) : String :=
  (match w.title with
   | some t => t
   | none => "No title")
  ++ ": " ++
  (match w.snippet with
   | some s => s
   | none => "No description")

theorem renderWebResult_eq_specWebLine (w : WebResult) :
    renderWebResult w = specWebLine w := by
  cases w with
  | mk t s => cases t <;> cases s <;> rfl

theorem renderFactLines_eq_filter_map (facts : List (String × String)) :
    renderFactLines facts
      = (facts.filter (fun kv => !kv.1.startsWith "_")).map specFactLine := by
  induction facts with
  | nil => rfl
  | cons kv rest ih =>
    by_cases h : kv.1.startsWith "_"
    · simp [renderFactLines, List.filter_cons, h, ih, renderFactLines] at ih ⊢
      simpa [renderFactLines, h] using ih
    · simp only [renderFactLines, List.filterMap_cons, h, if_neg] at ih ⊢
      simp [List.filter_cons, h, specFactLine]
      simpa [renderFactLines] using ih

/-- C1: for every turn, `chat_async` / `chat_sync` never let an exception
escape — they are total — and whenever an exception not absorbed by the
individual pipeline steps reaches the surrounding handler, the returned
response carries a descriptive `error`, the fixed apology as its response
text, and zero `memory_used`, `web_results` and `facts_retrieved`. -/
theorem claim1_total_failure (st : TurnSteps) (req : TurnRequest) (elapsed : ℚ) (e : Exc)
    (h : chat_body st = Except.error e) :
    RAGService.chat_async st req elapsed =
      { response := apology_text, sources := [], memory_used := 0, web_results := 0,
        facts_retrieved := 0, processing_time := elapsed, metadata := [],
        conversation_id := req.conversation_id,
        error := some ("RAG processing failed: " ++ e) } ∧
    RAGService.chat_sync st req elapsed =
      { response := apology_text, sources := [], memory_used := 0, web_results := 0,
        facts_retrieved := 0, processing_time := elapsed, metadata := [],
        conversation_id := req.conversation_id,
        error := some ("RAG processing failed: " ++ e) } := by
  constructor <;> simp [RAGService.chat_async, RAGService.chat_sync, h]

/-- A turn whose retrieval statement raises, exercising the total-failure
handler. -/
def failSteps : TurnSteps where
  retrieveStep := Except.error "assembly defect"
  generateStep := fun _ => Except.ok "unused"
  persistStep := fun _ => Except.ok true

theorem claim1_total_failure_witness :
    chat_body failSteps = Except.error "assembly defect" ∧
    (RAGService.chat_async failSteps { user_message := "Hello" } 3 =
      { response := apology_text, sources := [], memory_used := 0, web_results := 0,
        facts_retrieved := 0, processing_time := 3, metadata := [],
        conversation_id := none,
        error := some ("RAG processing failed: " ++ "assembly defect") } ∧
     RAGService.chat_sync failSteps { user_message := "Hello" } 3 =
      { response := apology_text, sources := [], memory_used := 0, web_results := 0,
        facts_retrieved := 0, processing_time := 3, metadata := [],
        conversation_id := none,
        error := some ("RAG processing failed: " ++ "assembly defect") }) :=
  ⟨rfl, claim1_total_failure failSteps { user_message := "Hello" } 3 "assembly defect" rfl⟩

/-- C4: against one and the same port behavior and elapsed time, the
blocking and the suspending entry points return identical `RAGResponse`
values, every field included. -/
theorem claim4_sync_async_identical (p : Ports) (req : TurnRequest) (elapsed : ℚ) :
    RAGService.chat_async_with p req elapsed = RAGService.chat_sync_with p req elapsed := rfl

/-- C3: when the awaited underlying turn raises, the streaming adapter
emits exactly one `error` event carrying the message and the resolved
conversation id, and the event sequence ends there. -/
theorem claim3_stream_error_event (e : Exc) (conversation_id : Option String) (freshId : String) :
    ConversationService.stream_response_async (Except.error e) conversation_id freshId
      = [WireEvent.error e (resolveConvId conversation_id freshId)] := rfl

/-- C6: when memories, facts and web results are all empty, the assembled
context text is exactly the placeholder string. -/
theorem claim6_empty_context (r : RetrievalResult)
    (hm : r.memories = []) (hf : r.facts = []) (hw : r.web_results = []) :
    context_text r = "No additional context available." := by
  simp [context_text, context_parts, hm, hf, hw]

theorem claim6_empty_context_witness :
    ({} : RetrievalResult).memories = [] ∧ ({} : RetrievalResult).facts = [] ∧
    ({} : RetrievalResult).web_results = [] ∧
    context_text {} = "No additional context available." :=
  ⟨rfl, rfl, rfl, claim6_empty_context {} rfl rfl rfl⟩

/-- C10: the serialized non-streaming result always has `success = True`
and carries the `RAGResponse` error value verbatim in its `error` field,
so a set error coexists with `success = True`. -/
theorem claim10_format_success_and_error (rag : RAGResponse)
    (user_id digital_human_id : Option Int) (timestamp : String) :
    (ConversationService.format_response rag user_id digital_human_id timestamp).success = true ∧
    (ConversationService.format_response rag user_id digital_human_id timestamp).error = rag.error :=
  ⟨rfl, rfl⟩

/-- C9: the health aggregation lands in exactly one of the three statuses;
it is `degraded` whenever some dependency is unhealthy while the
generation test call still works; and it is `unhealthy` exactly when the
generation test call fails and the search dependency is unhealthy too. -/
theorem claim9_health_aggregation (memory_status search_status : String) (openai_healthy : Bool) :
    (RAGService.health_check_status memory_status search_status openai_healthy = "healthy" ∨
     RAGService.health_check_status memory_status search_status openai_healthy = "degraded" ∨
     RAGService.health_check_status memory_status search_status openai_healthy = "unhealthy") ∧
    (openai_healthy = true → (memory_status = "unhealthy" ∨ search_status = "unhealthy") →
      RAGService.health_check_status memory_status search_status openai_healthy = "degraded") ∧
    (RAGService.health_check_status memory_status search_status openai_healthy = "unhealthy" ↔
      (openai_healthy = false ∧ search_status = "unhealthy")) := by
  unfold RAGService.health_check_status
  by_cases hm : memory_status = "healthy" <;>
    by_cases hs : search_status = "unhealthy" <;>
      cases openai_healthy <;>
        simp_all

theorem claim9_health_aggregation_witness :
    RAGService.health_check_status "healthy" "unhealthy" false = "unhealthy" :=
  (claim9_health_aggregation "healthy" "unhealthy" false).2.2.mpr ⟨rfl, rfl⟩

/-- C5: with all three retrieval categories non-empty, the assembled
context text is the memory section (up to 3 numbered snippets), then the
facts section (every fact whose key lacks the internal marker, as
`key: value` lines), then the web section (up to 3 numbered
`title: snippet` lines), in that fixed order with no interleaving; the
right-hand side is rendered by the spec-side definitions. -/
theorem claim5_context_order (r : RetrievalResult)
    (hm : r.memories ≠ []) (hf : r.facts ≠ []) (hw : r.web_results ≠ []) :
    context_text r = String.intercalate "\n"
      (("Previous conversation context:" :: specNumberedLines (r.memories.take 3))
        ++ ("\nKnown facts about the user:" ::
              (r.facts.filter (fun kv => !kv.1.startsWith "_")).map specFactLine)
        ++ ("\nRecent information from web search:" ::
              specNumberedLines ((r.web_results.take 3).map specWebLine))) := by
  have hweb : renderWebResult = specWebLine := funext renderWebResult_eq_specWebLine
  have hparts : context_parts r =
      ("Previous conversation context:" :: specNumberedLines (r.memories.take 3))
        ++ ("\nKnown facts about the user:" ::
              (r.facts.filter (fun kv => !kv.1.startsWith "_")).map specFactLine)
        ++ ("\nRecent information from web search:" ::
              specNumberedLines ((r.web_results.take 3).map specWebLine)) := by
    simp only [context_parts, List.isEmpty_iff, hm, hf, hw, if_neg,
      numberFrom_eq_enumFrom, renderFactLines_eq_filter_map, hweb, specNumberedLines]
    simp
  rw [context_text, hparts]
  simp

def claim5_example_retrieval : RetrievalResult :=
  { memories := ["likes tea"]
    facts := [("name", "Ada"), ("_internal", "x")]
    web_results := [{ title := some "Weather", snippet := some "Sunny" }]
    sources := ["memory"]
    metadata := [] }

theorem claim5_context_order_witness :
    claim5_example_retrieval.memories ≠ [] ∧
    claim5_example_retrieval.facts ≠ [] ∧
    claim5_example_retrieval.web_results ≠ [] ∧
    context_text claim5_example_retrieval = String.intercalate "\n"
      (("Previous conversation context:" :: specNumberedLines (claim5_example_retrieval.memories.take 3))
        ++ ("\nKnown facts about the user:" ::
              (claim5_example_retrieval.facts.filter (fun kv => !kv.1.startsWith "_")).map specFactLine)
        ++ ("\nRecent information from web search:" ::
              specNumberedLines ((claim5_example_retrieval.web_results.take 3).map specWebLine))) :=
  ⟨by decide, by decide, by decide,
   claim5_context_order claim5_example_retrieval (by decide) (by decide) (by decide)⟩

/-- C7: when the generation port fails, the turn absorbs the failure: the
returned response has a null error, and the response text is the
memory-aware fallback (which quotes the user message and references the
previous conversations) when memories were retrieved, otherwise the
generic apology variant (which also quotes the message). -/
theorem claim7_generation_fallback (p : Ports) (req : TurnRequest) (elapsed : ℚ) (e : Exc)
    (hg : ∀ sys usr cap temp, p.genCreate sys usr cap temp = Except.error e) :
    (RAGService.chat_async_with p req elapsed).error = none ∧
    (RAGService.chat_async_with p req elapsed).response =
      (if (MemoryManager.retrieve_context_async p.memRetrieve req.user_message 5
            req.user_id req.digital_human_id).memories.isEmpty
       then generic_fallback_text req.user_message
       else memory_fallback_text req.user_message) := by
  unfold RAGService.chat_async_with RAGService.chat_async asyncSteps chat_body
  simp only [RAGService.generate_response_async, RAGService.generate_response_sync, hg]
  cases hmem : (MemoryManager.retrieve_context_async p.memRetrieve req.user_message 5
      req.user_id req.digital_human_id).memories.isEmpty <;>
    simp [hmem]

def claim7_ports : Ports where
  memRetrieve := fun _ _ => Except.ok { memories := ["likes tea"] }
  genCreate := fun _ _ _ _ => Except.error "api down"
  memStore := fun _ _ _ => Except.ok ()

theorem claim7_generation_fallback_witness :
    (∀ sys usr cap temp, claim7_ports.genCreate sys usr cap temp = Except.error "api down") ∧
    ((RAGService.chat_async_with claim7_ports { user_message := "Hello" } 1).error = none ∧
     (RAGService.chat_async_with claim7_ports { user_message := "Hello" } 1).response =
       (if (MemoryManager.retrieve_context_async claim7_ports.memRetrieve "Hello" 5
             none none).memories.isEmpty
        then generic_fallback_text "Hello"
        else memory_fallback_text "Hello")) :=
  ⟨fun _ _ _ _ => rfl,
   claim7_generation_fallback claim7_ports { user_message := "Hello" } 1 "api down"
     (fun _ _ _ _ => rfl)⟩

/-- C8: when persistence fails after a successful generation, the failure
is absorbed inside the persistence step: the returned response has a null
error, its text is the generated (stripped) content, and the whole
response equals the one a successful persistence would have produced. -/
theorem claim8_persistence_failure_absorbed (p : Ports) (req : TurnRequest) (elapsed : ℚ)
    (content : String) (e : Exc)
    (hgen : ∀ sys usr cap temp, p.genCreate sys usr cap temp = Except.ok content)
    (hstore : ∀ m r c, p.memStore m r c = Except.error e) :
    (RAGService.chat_async_with p req elapsed).error = none ∧
    (RAGService.chat_async_with p req elapsed).response = content.trim ∧
    RAGService.chat_async_with p req elapsed =
      RAGService.chat_async_with { p with memStore := fun _ _ _ => Except.ok () } req elapsed := by
  unfold RAGService.chat_async_with RAGService.chat_async asyncSteps chat_body
  simp [RAGService.generate_response_async, RAGService.generate_response_sync, hgen, hstore,
    MemoryManager.store_conversation_async]

def claim8_ports : Ports where
  memRetrieve := fun _ _ => Except.ok {}
  genCreate := fun _ _ _ _ => Except.ok "Hi there!"
  memStore := fun _ _ _ => Except.error "disk full"

theorem claim8_persistence_failure_absorbed_witness :
    (∀ sys usr cap temp, claim8_ports.genCreate sys usr cap temp = Except.ok "Hi there!") ∧
    (∀ m r c, claim8_ports.memStore m r c = Except.error "disk full") ∧
    ((RAGService.chat_async_with claim8_ports { user_message := "Hello" } 1).error = none ∧
     (RAGService.chat_async_with claim8_ports { user_message := "Hello" } 1).response =
       ("Hi there!" : String).trim ∧
     RAGService.chat_async_with claim8_ports { user_message := "Hello" } 1 =
       RAGService.chat_async_with { claim8_ports with memStore := fun _ _ _ => Except.ok () }
         { user_message := "Hello" } 1) :=
  ⟨fun _ _ _ _ => rfl, fun _ _ _ => rfl,
   claim8_persistence_failure_absorbed claim8_ports { user_message := "Hello" } 1 "Hi there!"
     "disk full" (fun _ _ _ _ => rfl) (fun _ _ _ => rfl)⟩

theorem filterMap_chunk_contents {α : Type} (l : List α) (c : α → String) (n : α → Nat) :
    (l.map (fun a => WireEvent.chunk (c a) (n a))).filterMap (fun ev =>
        match ev with
        | WireEvent.chunk content _ => some content
        | _ => none)
      = l.map c := by
  induction l with
  | nil => rfl
  | cons a l ih => simp_all

theorem filterMap_chunk_ids {α : Type} (l : List α) (c : α → String) (n : α → Nat) :
    (l.map (fun a => WireEvent.chunk (c a) (n a))).filterMap (fun ev =>
        match ev with
        | WireEvent.chunk _ chunk_id => some chunk_id
        | _ => none)
      = l.map n := by
  induction l with
  | nil => rfl
  | cons a l ih => simp_all

theorem getLast?_cons_concat (a : WireEvent) (l : List WireEvent) (b : WireEvent) :
    (a :: l ++ [b]).getLast? = some b := by
  rw [show a :: l ++ [b] = (a :: l) ++ [b] from rfl, List.getLast?_concat]

theorem chunkContentsOf_stream (rag : RAGResponse) (conversation_id : Option String)
    (freshId : String) :
    chunkContentsOf (ConversationService.stream_response_async (Except.ok rag)
        conversation_id freshId)
      = (chunksOf 20 rag.response.data).map String.mk := by
  have hev : ConversationService.stream_response_async (Except.ok rag) conversation_id freshId
      = WireEvent.metadata (resolveConvId conversation_id freshId) rag.sources
          rag.memory_used rag.web_results rag.processing_time
        :: (chunkEvents rag.response 20
        ++ [WireEvent.complete (resolveConvId conversation_id freshId)
              ((rag.response.length + 20 - 1) / 20)]) := rfl
  rw [hev]
  show List.filterMap _ _ = _
  rw [List.filterMap_cons]
  simp only []
  rw [List.filterMap_append]
  rw [chunkEvents, filterMap_chunk_contents]
  simp only [List.filterMap_cons, List.filterMap_nil, List.append_nil]
  rw [pyRange, List.map_map]
  have hcomp : ((fun i => String.mk ((rag.response.data.drop i).take 20)) ∘ fun j => j * 20)
      = String.mk ∘ (fun j => (rag.response.data.drop (j * 20)).take 20) := rfl
  rw [hcomp, ← List.map_map]
  have hlen : rag.response.length = rag.response.data.length := rfl
  have h20 : rag.response.length + 20 - 1 = rag.response.data.length + 19 := by
    rw [hlen]
    omega
  rw [h20, range_map_chunksOf]

theorem chunkIdsOf_stream (rag : RAGResponse) (conversation_id : Option String)
    (freshId : String) :
    chunkIdsOf (ConversationService.stream_response_async (Except.ok rag)
        conversation_id freshId)
      = List.range ((rag.response.length + 19) / 20) := by
  have hev : ConversationService.stream_response_async (Except.ok rag) conversation_id freshId
      = WireEvent.metadata (resolveConvId conversation_id freshId) rag.sources
          rag.memory_used rag.web_results rag.processing_time
        :: (chunkEvents rag.response 20
        ++ [WireEvent.complete (resolveConvId conversation_id freshId)
              ((rag.response.length + 20 - 1) / 20)]) := rfl
  rw [hev]
  show List.filterMap _ _ = _
  rw [List.filterMap_cons]
  simp only []
  rw [List.filterMap_append]
  rw [chunkEvents, filterMap_chunk_ids]
  simp only [List.filterMap_cons, List.filterMap_nil, List.append_nil]
  rw [pyRange, List.map_map]
  have hdiv : ∀ l : List Nat, l.map ((fun i => i / 20) ∘ fun j => j * 20) = l.map id := by
    intro l
    apply List.map_congr_left
    intro j _
    simp only [Function.comp_apply, id_eq]
    omega
  have h20 : rag.response.length + 20 - 1 = rag.response.length + 19 := by omega
  rw [hdiv, List.map_id, h20]

theorem chunksOf_length_eq (cs : List Char) :
    (chunksOf 20 cs).length = (cs.length + 19) / 20 := by
  rw [← range_map_chunksOf]
  simp

/-- C2: on a successful turn, the adapter emits exactly
`ceil(len(text)/20)` chunk events; their contents joined in emission order
reconstruct the response text exactly; their `chunk_id` fields are the
sequence `0 .. ceil(len(text)/20) - 1`; the final event is the single
`complete` event carrying that chunk count; and an empty response text
still produces the `metadata` event and a `complete` event with
`total_chunks = 0` and no chunk events at all. -/
theorem claim2_stream_chunk_protocol (rag : RAGResponse) (conversation_id : Option String)
    (freshId : String) :
    (chunkContentsOf (ConversationService.stream_response_async (Except.ok rag)
        conversation_id freshId)).length = (rag.response.length + 19) / 20 ∧
    String.join (chunkContentsOf (ConversationService.stream_response_async (Except.ok rag)
        conversation_id freshId)) = rag.response ∧
    chunkIdsOf (ConversationService.stream_response_async (Except.ok rag)
        conversation_id freshId) = List.range ((rag.response.length + 19) / 20) ∧
    (ConversationService.stream_response_async (Except.ok rag)
        conversation_id freshId).getLast?
      = some (WireEvent.complete (resolveConvId conversation_id freshId)
          ((rag.response.length + 19) / 20)) ∧
    ConversationService.stream_response_async (Except.ok { rag with response := "" })
        conversation_id freshId
      = [WireEvent.metadata (resolveConvId conversation_id freshId) rag.sources
           rag.memory_used rag.web_results rag.processing_time,
         WireEvent.complete (resolveConvId conversation_id freshId) 0] := by
  refine ⟨?_, ?_, ?_, ?_, ?_⟩
  · rw [chunkContentsOf_stream, List.length_map, chunksOf_length_eq]
    rfl
  · rw [chunkContentsOf_stream, String.join_map_mk, chunksOf_flatten 20 (by omega),
      String.mk_data_eq]
  · exact chunkIdsOf_stream rag conversation_id freshId
  · have hev : ConversationService.stream_response_async (Except.ok rag) conversation_id freshId
        = WireEvent.metadata (resolveConvId conversation_id freshId) rag.sources
            rag.memory_used rag.web_results rag.processing_time
          :: (chunkEvents rag.response 20
          ++ [WireEvent.complete (resolveConvId conversation_id freshId)
                ((rag.response.length + 20 - 1) / 20)]) := rfl
    rw [hev, show rag.response.length + 20 - 1 = rag.response.length + 19 from by omega]
    exact getLast?_cons_concat _ _ _
  · simp [ConversationService.stream_response_async, chunkEvents, pyRange]
